import Mathlib

/-!
Verification of the bubble lifecycle / settlement engine
(`core/vm/bubble_contract.go` of turnnetwork/bubble).

Shallow embedding: addresses and hashes are naturals, amounts and balances
are integers (Go `big.Int`), the chain state is an explicit record, and
each contract operation is a Lean function from an execution environment
and a state to an outcome carrying the next state.  The embedded virtual
machine, which executes forwarded ERC20-transfer calls, is an external
collaborator and is modelled as an oracle (`runEvm`) inside the
environment; the plugin persistence layer (`x/plugin`, not part of the
sources here) is modelled from the spec as plain record updates.
-/

/-- Parent-chain account address (Go `common.Address`). -/
abbrev Addr := Nat

/-- Transaction / block hash (Go `common.Hash`). -/
abbrev HashVal := Nat

/-- The all-zero sentinel hash `common.ZeroHash`; a transaction hash equal
to it marks a gas-estimation (dry-run) invocation. -/
def ZeroHash : HashVal := 0

/-- The reserved system address of the bubble contract, which also acts as
the custody wallet holding staked assets (Go `vm.BubbleContractAddr`). -/
def BubbleContractAddr : Addr := 1000

/-- Modelled from the spec: the bubble lifecycle states are ordinal,
`Created -> Active -> PreRelease -> Released`; the numeric constants are
declared in the `x/bubble` package, which is not among the sources, so the
ordinals follow the spec's ordering. -/
def CreatedStatus : Nat := 0

/-- Modelled from the spec: the implicit Active lifecycle state. -/
def ActiveStatus : Nat := 1

/-- Modelled from the spec: the PreRelease lifecycle state. -/
def PreReleaseStatus : Nat := 2

/-- Modelled from the spec: the Released lifecycle state. -/
def ReleasedStatus : Nat := 3

/-- One ERC20 token entry of an account asset (Go `bubble.AccTokenAsset`). -/
structure AccTokenAsset where
  tokenAddr : Addr
  balance : Int
deriving DecidableEq, Repr

/-- Per-(bubble, account) custody record (Go `bubble.AccountAsset`). -/
structure AccountAsset where
  account : Addr
  nativeAmount : Int
  tokenAssets : List AccTokenAsset
deriving DecidableEq, Repr

/-- A main-chain operator entry (Go `bubble.Operator` as used in
`OperatorsL1`): node id and operator address. -/
structure OperatorL1 where
  nodeId : Nat
  opAddr : Addr
deriving DecidableEq, Repr

/-- A sub-chain operator entry (Go entry of `OperatorsL2`): node id, RPC
endpoint (abstracted to a number) and operator address. -/
structure OperatorL2 where
  nodeId : Nat
  rpc : Nat
  opAddr : Addr
deriving DecidableEq, Repr

/-- Immutable basic data of a bubble (Go `bubble.BubBasics`). -/
structure BubBasics where
  bubbleId : Nat
  size : Nat
  operatorsL1 : List OperatorL1
  operatorsL2 : List OperatorL2
deriving DecidableEq, Repr

/-- A contract remotely deployed inside a bubble (Go `bubble.ContractInfo`). -/
structure ContractInfo where
  creator : Addr
  address : Addr
  amount : Int
deriving DecidableEq, Repr

/-- The settlement batch submitted by the sub-chain operator
(Go `bubble.SettlementInfo`). -/
structure SettlementInfo where
  accAssets : List AccountAsset
deriving DecidableEq, Repr

/-- Transaction types recorded in a bubble's hash history
(Go `bubble.BubTxType`). -/
inductive BubTxType where
  | StakingToken
  | WithdrewToken
  | SettleBubble
deriving DecidableEq, Repr

/-- A one-shot cross-chain task handed to the off-chain dispatch channel
(Go `bubble.RemoteDeployTask` / `RemoteCallTask` / `MintTokenTask`). -/
inductive CrossChainTask where
  | remoteDeployTask (txHash : HashVal) (bubbleID : Nat) (address : Addr)
      (data : List Nat) (rpc : Nat) (opAddr : Addr)
  | remoteCallTask (txHash : HashVal) (caller : Addr) (bubbleID : Nat)
      (contract : Addr) (data : List Nat) (rpc : Nat) (opAddr : Addr)
  | mintTokenTask (bubbleID : Nat) (txHash : HashVal) (rpc : Nat)
      (opAddr : Addr) (accAsset : AccountAsset)
deriving DecidableEq, Repr

/-- The persisted chain state visible to the bubble contract: parent-chain
balances (`StateDB`), the plugin's per-bubble records, the bubble-local
bytecode cache, and the list of cross-chain tasks enqueued so far. -/
structure ChainState where
  balances : Addr → Int
  bubBasics : Nat → Option BubBasics
  bubStatus : Nat → Option Nat
  accAssets : Nat → Addr → Option AccountAsset
  accList : Nat → List Addr
  txHashes : Nat → BubTxType → List HashVal
  l2ToL1 : Nat → HashVal → Option HashVal
  contracts : Nat → Addr → Option ContractInfo
  codeCache : Addr → Option (List Nat)
  tasks : List CrossChainTask

/-- Input of a nested virtual-machine call: either an encoded ERC20
`transfer(to, amount)` or raw call data. -/
inductive CallInput where
  | transfer (receiver : Addr) (amount : Int)
  | raw (data : List Nat)
deriving DecidableEq, Repr

/-- The execution environment of one inbound call: the transaction hash,
the sender (`bc.Contract.CallerAddress`), the transaction origin
(`bc.Evm.Origin`), the local node id (`bc.Plugin.NodeID`), whether the gas
reservation succeeds (`bc.Contract.UseGas`), the virtual machine's code
store and call executor, and the size-class configuration
(`bubble.GetSizeConfig(size).MinStakingAmount`). -/
structure EvmEnv where
  txHash : HashVal
  callerAddress : Addr
  origin : Addr
  nodeId : Nat
  gasOk : Bool
  getCode : Addr → List Nat
  runEvm : Addr → Addr → CallInput → Bool
  minStakingAmount : Nat → Option Int

/-- Business errors of the bubble package (Go `bubble.Err*`, each a
`*common.BizError` value). -/
inductive BizErr where
  | ErrStakingAccount
  | ErrBubbleNotExist
  | ErrBubbleIsRelease
  | ErrAccountNoEnough
  | ErrERC20NoExist
  | ErrEncodeTransferData
  | ErrEVMExecERC20
  | ErrBubbleIsNotRelease
  | ErrStoreAccAsset
  | ErrIsNotSubChainOpAddr
  | ErrSettleAccListIncLength
  | ErrSettleAccNoExist
  | ErrStoreAccAssetToBub
  | ErrStoreL2HashToL1Hash
  | ErrStakingAmountTooLow
  | ErrBubbleIsPreRelease
  | ErrEmptyContractCode
  | ErrContractIsExist
  | ErrContractNotExist
  | ErrSenderIsNotOperator
  | ErrSenderIsNotCreator
  | ErrContractReturns
deriving DecidableEq, Repr

/-- Errors that are not `*common.BizError` values: they are returned raw to
the dispatcher and abort the state transition instead of producing a
structured failure receipt. `evmCallFailed` is the `errors.New(...)` built
from a failed nested virtual-machine call during gas estimation;
`rawBiz` is a business-error value that a handler returns without routing
it through `txResultHandler` (as `remoteDeploy` does for
`ErrAccountNoEnough`). -/
inductive RawErr where
  | outOfGas
  | sizeConfigMissing
  | evmCallFailed
  | rawBiz (e : BizErr)
deriving DecidableEq, Repr

/-- Error type of the inner processing functions (`StakingToken`,
`WithdrewToken`, `SettleBubble`): either a business error or a raw one. -/
inductive VMErr where
  | biz (e : BizErr)
  | raw (e : RawErr)
deriving DecidableEq, Repr

/-- Result of an inner processing function: a value with the next state, an
error with the state reached so far, or a Go runtime panic (nil-pointer
dereference or index-out-of-range), modelled as `crash`. -/
inductive ExecRes (α : Type) where
  | ok (v : α) (st : ChainState)
  | err (e : VMErr) (st : ChainState)
  | crash

/-- Outcome of a dispatched operation: the `(nil, nil)` null result, a
success receipt, a structured business-failure receipt (`txResultHandler`),
a raw error propagated to the dispatcher, or a runtime panic. -/
inductive TxOutcome where
  | nullResult (st : ChainState)
  | receipt (st : ChainState)
  | bizFail (e : BizErr) (st : ChainState)
  | rawErr (e : RawErr) (st : ChainState)
  | crash

/-- `state.SubBalance src amt` followed by `state.AddBalance dst amt`. -/
def moveBalance (st : ChainState) (src dst : Addr) (amt : Int) : ChainState :=
  { st with balances := fun a =>
      if a = dst then (if a = src then st.balances a - amt else st.balances a) + amt
      else if a = src then st.balances a - amt
      else st.balances a }

/-- Modelled from the spec: plugin `AddAccAssetToBub` persists the staked
asset keyed by account and registers the account in the bubble's account
list (the `AccList` record backing `GetAccListOfBub`). -/
def addAccAssetToBub (st : ChainState) (bid : Nat) (asset : AccountAsset) : ChainState :=
  { st with
    accAssets := fun b a =>
      if b = bid then (if a = asset.account then some asset else st.accAssets b a)
      else st.accAssets b a,
    accList := fun b =>
      if b = bid then
        (if asset.account ∈ st.accList bid then st.accList b else st.accList b ++ [asset.account])
      else st.accList b }

/-- Modelled from the spec: plugin `StoreAccAssetToBub` replaces the stored
asset of `asset.account` wholesale (used by withdrawal and settlement). -/
def storeAccAssetToBub (st : ChainState) (bid : Nat) (asset : AccountAsset) : ChainState :=
  { st with
    accAssets := fun b a =>
      if b = bid then (if a = asset.account then some asset else st.accAssets b a)
      else st.accAssets b a }

/-- Modelled from the spec: plugin `StoreTxHashToBub` appends the
transaction hash to the bubble's per-type hash history (append-only). -/
def storeTxHashToBub (st : ChainState) (bid : Nat) (h : HashVal) (t : BubTxType) : ChainState :=
  { st with txHashes := fun b ty =>
      if b = bid then (if ty = t then st.txHashes b ty ++ [h] else st.txHashes b ty)
      else st.txHashes b ty }

/-- Modelled from the spec: plugin `StoreL2HashToL1Hash` records the
mapping from the sub-chain settlement hash to the main-chain one. -/
def storeL2HashToL1Hash (st : ChainState) (bid : Nat) (l1 l2 : HashVal) : ChainState :=
  { st with l2ToL1 := fun b h =>
      if b = bid then (if h = l2 then some l1 else st.l2ToL1 b h)
      else st.l2ToL1 b h }

/-- Modelled from the spec: plugin `StoreBubContract` registers a
remote-deployed contract under `(bubbleID, address)`. -/
def storeBubContract (st : ChainState) (bid : Nat) (ci : ContractInfo) : ChainState :=
  { st with contracts := fun b a =>
      if b = bid then (if a = ci.address then some ci else st.contracts b a)
      else st.contracts b a }

/-- Modelled from the spec: plugin `DelBubContract` removes the
registration of `(bubbleID, address)`. -/
def delBubContract (st : ChainState) (bid : Nat) (addr : Addr) : ChainState :=
  { st with contracts := fun b a =>
      if b = bid then (if a = addr then none else st.contracts b a)
      else st.contracts b a }

/-- Modelled from the spec: plugin `StoreByteCode` caches bytecode for an
address in the bubble-local code cache. -/
def storeByteCode (st : ChainState) (addr : Addr) (code : List Nat) : ChainState :=
  { st with codeCache := fun a => if a = addr then some code else st.codeCache a }

/-- Appends a cross-chain task to the dispatch queue (the plugin's
`Post...Event` calls; the spec's fire-and-forget enqueue). -/
def postTask (st : ChainState) (t : CrossChainTask) : ChainState :=
  { st with tasks := st.tasks ++ [t] }

/-- Modelled from the spec: plugin `GetBubbleInfo` reads a bubble's basics
together with its lifecycle state and fails when the bubble is unknown. -/
def getBubbleInfo (st : ChainState) (bid : Nat) : Option (BubBasics × Nat) :=
  match st.bubBasics bid, st.bubStatus bid with
  | some b, some s => some (b, s)
  | _, _ => none

/-- `encodeTransferFuncCall(receiver, amount)`: builds the call data of an
ERC20 `transfer`.  ABI-packing an address and a uint256 cannot fail, so
the model is total and the `ErrEncodeTransferData` branch is dead. -/
def encodeTransferFuncCall (receiver : Addr) (amount : Int) : CallInput :=
  CallInput.transfer receiver amount

/-- The ERC20 forwarding loop of `StakingToken` (lines 554-588): for each
declared token asset, require deployed code at the token address, then run
the synthesized `transfer(BubbleContractAddr, balance)` with the staker as
caller; a failed run is a raw error during gas estimation and
`ErrEVMExecERC20` otherwise. -/
def stakeTokens (env : EvmEnv) (sender : Addr) : List AccTokenAsset → Except VMErr Unit
  | [] => Except.ok ()
  | t :: rest =>
    if (env.getCode t.tokenAddr).isEmpty then Except.error (VMErr.biz BizErr.ErrERC20NoExist)
    else if env.runEvm sender t.tokenAddr (encodeTransferFuncCall BubbleContractAddr t.balance) then
      stakeTokens env sender rest
    else if env.txHash = ZeroHash then Except.error (VMErr.raw RawErr.evmCallFailed)
    else Except.error (VMErr.biz BizErr.ErrEVMExecERC20)

/-- The ERC20 forwarding loop of `WithdrewToken` (lines 664-704): the call
context's caller is switched to the custody address, each stored token is
forwarded back via `transfer(sender, balance)`, and the zeroed token
entries of the reset asset are collected. -/
def withdrawTokens (env : EvmEnv) (sender : Addr) : List AccTokenAsset → Except VMErr (List AccTokenAsset)
  | [] => Except.ok []
  | t :: rest =>
    if (env.getCode t.tokenAddr).isEmpty then Except.error (VMErr.biz BizErr.ErrERC20NoExist)
    else if env.runEvm BubbleContractAddr t.tokenAddr (encodeTransferFuncCall sender t.balance) then
      match withdrawTokens env sender rest with
      | Except.error e => Except.error e
      | Except.ok rs => Except.ok ({ tokenAddr := t.tokenAddr, balance := 0 } :: rs)
    else if env.txHash = ZeroHash then Except.error (VMErr.raw RawErr.evmCallFailed)
    else Except.error (VMErr.biz BizErr.ErrEVMExecERC20)

/-- Native staking step of `StakingToken` (lines 544-549): when the
declared native amount is positive it moves from the staker to custody. -/
def stakeNative (st : ChainState) (sender : Addr) (amt : Int) : ChainState :=
  if 0 < amt then moveBalance st sender BubbleContractAddr amt else st

/-- Native withdrawal step of `WithdrewToken` (lines 654-659): when the
stored native amount is positive it moves from custody back to the
account. -/
def withdrawNative (st : ChainState) (sender : Addr) (amt : Int) : ChainState :=
  if 0 < amt then moveBalance st BubbleContractAddr sender amt else st

/-- Persistence tail of `StakingToken` (lines 595-620): store the asset,
append the staking transaction hash, and, when the local node is the
bubble's primary main-chain operator, enqueue the mint-token task (the
`OperatorsL1[0]` / `OperatorsL2[0]` indexing panics on empty lists). -/
def stakingTokenPersist (env : EvmEnv) (st1 : ChainState) (bubbleID : Nat)
    (basics : BubBasics) (stakingAsset : AccountAsset) : ExecRes (Option Unit) :=
  match basics.operatorsL1.head? with
  | none => ExecRes.crash
  | some op1 =>
    if env.nodeId = op1.nodeId then
      match basics.operatorsL2.head? with
      | none => ExecRes.crash
      | some op2 =>
        ExecRes.ok (some ())
          (postTask
            (storeTxHashToBub (addAccAssetToBub st1 bubbleID stakingAsset) bubbleID env.txHash BubTxType.StakingToken)
            (CrossChainTask.mintTokenTask bubbleID env.txHash op2.rpc op1.opAddr stakingAsset))
    else
      ExecRes.ok (some ())
        (storeTxHashToBub (addAccAssetToBub st1 bubbleID stakingAsset) bubbleID env.txHash BubTxType.StakingToken)

/-- Token loop, estimation cut-off and persistence of `StakingToken`
(lines 551-620), entered after the native amounts have moved. -/
def stakingTokenRun (env : EvmEnv) (st1 : ChainState) (bubbleID : Nat)
    (basics : BubBasics) (stakingAsset : AccountAsset) : ExecRes (Option Unit) :=
  match stakeTokens env env.callerAddress stakingAsset.tokenAssets with
  | Except.error e => ExecRes.err e st1
  | Except.ok _ =>
    if env.txHash = ZeroHash then ExecRes.ok none st1
    else stakingTokenPersist env st1 bubbleID basics stakingAsset

/-- `StakingToken` (lines 509-621): the inner processing logic of the
staking operation. -/
def StakingToken (env : EvmEnv) (st : ChainState) (bubbleID : Nat)
    (stakingAsset : AccountAsset) : ExecRes (Option Unit) :=
  if env.callerAddress ≠ stakingAsset.account then
    ExecRes.err (VMErr.biz BizErr.ErrStakingAccount) st
  else match st.bubBasics bubbleID with
  | none => ExecRes.err (VMErr.biz BizErr.ErrBubbleNotExist) st
  | some basics =>
    match st.bubStatus bubbleID with
    | none => ExecRes.err (VMErr.biz BizErr.ErrBubbleNotExist) st
    | some bubState =>
      if bubState = ReleasedStatus then ExecRes.err (VMErr.biz BizErr.ErrBubbleIsRelease) st
      else if st.balances env.callerAddress < stakingAsset.nativeAmount then
        ExecRes.err (VMErr.biz BizErr.ErrAccountNoEnough) st
      else
        stakingTokenRun env (stakeNative st env.callerAddress stakingAsset.nativeAmount)
          bubbleID basics stakingAsset

/-- Token loop, estimation cut-off and persistence of `WithdrewToken`
(lines 661-719), entered after the native amount has moved back; on
success the stored asset is replaced by the zeroed reset asset and the
withdrawal hash is appended. -/
def withdrewTokenRun (env : EvmEnv) (st1 : ChainState) (bubbleID : Nat)
    (accAsset : AccountAsset) : ExecRes (Option AccountAsset) :=
  match withdrawTokens env env.callerAddress accAsset.tokenAssets with
  | Except.error e => ExecRes.err e st1
  | Except.ok resetTokens =>
    if env.txHash = ZeroHash then ExecRes.ok none st1
    else
      ExecRes.ok (some accAsset)
        (storeTxHashToBub
          (storeAccAssetToBub st1 bubbleID
            { account := env.callerAddress, nativeAmount := 0, tokenAssets := resetTokens })
          bubbleID env.txHash BubTxType.WithdrewToken)

/-- `WithdrewToken` (lines 624-720): the inner processing logic of the
withdrawal operation.  A caller with no stored asset yields `(nil, nil)`,
modelled as `ok none` with the state unchanged. -/
def WithdrewToken (env : EvmEnv) (st : ChainState) (bubbleID : Nat) : ExecRes (Option AccountAsset) :=
  match st.bubBasics bubbleID with
  | none => ExecRes.err (VMErr.biz BizErr.ErrBubbleNotExist) st
  | some _ =>
    match st.bubStatus bubbleID with
    | none => ExecRes.err (VMErr.biz BizErr.ErrBubbleNotExist) st
    | some bubState =>
      if bubState ≠ ReleasedStatus then ExecRes.err (VMErr.biz BizErr.ErrBubbleIsNotRelease) st
      else match st.accAssets bubbleID env.callerAddress with
      | none => ExecRes.ok none st
      | some accAsset =>
        withdrewTokenRun env (withdrawNative st env.callerAddress accAsset.nativeAmount)
          bubbleID accAsset

/-- The reconstruction loop of `SettleBubble` (lines 754-774): every
submitted account must already have a stored asset record; the submitted
snapshots are rebuilt into the list of assets to store. -/
def buildNewAssets (st : ChainState) (bubbleID : Nat) : List AccountAsset → Except VMErr (List AccountAsset)
  | [] => Except.ok []
  | a :: rest =>
    match st.accAssets bubbleID a.account with
    | none => Except.error (VMErr.biz BizErr.ErrSettleAccNoExist)
    | some _ =>
      match buildNewAssets st bubbleID rest with
      | Except.error e => Except.error e
      | Except.ok ns =>
        Except.ok
          ({ account := a.account, nativeAmount := a.nativeAmount,
             tokenAssets := a.tokenAssets.map (fun t => { tokenAddr := t.tokenAddr, balance := t.balance }) } :: ns)

/-- `SettleBubble` (lines 723-798): the inner processing logic of the
settlement operation. -/
def SettleBubble (env : EvmEnv) (st : ChainState) (L2SettleTxHash : HashVal)
    (bubbleID : Nat) (settlementInfo : SettlementInfo) : ExecRes (Option Unit) :=
  match st.bubBasics bubbleID with
  | none => ExecRes.err (VMErr.biz BizErr.ErrBubbleNotExist) st
  | some basics =>
    match st.bubStatus bubbleID with
    | none => ExecRes.err (VMErr.biz BizErr.ErrBubbleNotExist) st
    | some bubState =>
      if bubState = ReleasedStatus then ExecRes.err (VMErr.biz BizErr.ErrBubbleIsRelease) st
      else match basics.operatorsL2.head? with
      | none => ExecRes.crash
      | some op2 =>
        if env.callerAddress ≠ op2.opAddr then
          ExecRes.err (VMErr.biz BizErr.ErrIsNotSubChainOpAddr) st
        else if (st.accList bubbleID).length ≠ settlementInfo.accAssets.length then
          ExecRes.err (VMErr.biz BizErr.ErrSettleAccListIncLength) st
        else match buildNewAssets st bubbleID settlementInfo.accAssets with
        | Except.error e => ExecRes.err e st
        | Except.ok newAccAssets =>
          if env.txHash = ZeroHash then ExecRes.ok none st
          else
            ExecRes.ok (some ())
              (storeTxHashToBub
                (storeL2HashToL1Hash
                  (newAccAssets.foldl (fun s a => storeAccAssetToBub s bubbleID a) st)
                  bubbleID env.txHash L2SettleTxHash)
                bubbleID env.txHash BubTxType.SettleBubble)

/-- Converts an inner result into the dispatched outcome, as the
`stakingToken` / `withdrewToken` / `settleBubble` handlers do: `(nil, nil)`
stays the null result, a `*common.BizError` becomes a structured failure
receipt, any other error propagates raw. -/
def wrapTx {α : Type} (r : ExecRes (Option α)) : TxOutcome :=
  match r with
  | ExecRes.ok none st1 => TxOutcome.nullResult st1
  | ExecRes.ok (some _) st1 => TxOutcome.receipt st1
  | ExecRes.err (VMErr.biz e) st1 => TxOutcome.bizFail e st1
  | ExecRes.err (VMErr.raw e) st1 => TxOutcome.rawErr e st1
  | ExecRes.crash => TxOutcome.crash

/-- The `stakingToken` handler (lines 412-440): gas reservation, inner
logic, result translation. -/
def stakingToken (env : EvmEnv) (st : ChainState) (bubbleID : Nat)
    (stakingAsset : AccountAsset) : TxOutcome :=
  if env.gasOk = false then TxOutcome.rawErr RawErr.outOfGas st
  else wrapTx (StakingToken env st bubbleID stakingAsset)

/-- The `withdrewToken` handler (lines 443-470). -/
def withdrewToken (env : EvmEnv) (st : ChainState) (bubbleID : Nat) : TxOutcome :=
  if env.gasOk = false then TxOutcome.rawErr RawErr.outOfGas st
  else wrapTx (WithdrewToken env st bubbleID)

/-- The `settleBubble` handler (lines 476-506). -/
def settleBubble (env : EvmEnv) (st : ChainState) (L2SettleTxHash : HashVal)
    (bubbleID : Nat) (settlementInfo : SettlementInfo) : TxOutcome :=
  if env.gasOk = false then TxOutcome.rawErr RawErr.outOfGas st
  else wrapTx (SettleBubble env st L2SettleTxHash bubbleID settlementInfo)

/-- Bytecode resolution of `remoteDeploy` (lines 196-200): the bubble-local
cache first, the virtual machine's code store as fallback. -/
def deployByteCode (env : EvmEnv) (st : ChainState) (address : Addr) : List Nat :=
  match st.codeCache address with
  | some c => c
  | none => env.getCode address

/-- The operator loop of `remoteDeploy` / `remoteCall` (lines 245-251 and
323-329): the task is posted once for every main-chain operator entry
whose node id equals the local node's. -/
def postTasksL1 (ops : List OperatorL1) (nid : Nat) (task : CrossChainTask)
    (st : ChainState) : ChainState :=
  ops.foldl (fun s op => if op.nodeId = nid then postTask s task else s) st

/-- Persistence tail of `remoteDeploy` (lines 220-253): funds move to
custody, the bytecode is cached, the contract is registered, and the
deploy task (whose construction indexes `OperatorsL2[0]` and
`OperatorsL1[0]`, panicking on empty lists) is posted per matching
operator. -/
def remoteDeployPersist (env : EvmEnv) (st : ChainState) (bubbleID : Nat)
    (address : Addr) (amount : Int) (data : List Nat) (basics : BubBasics) : TxOutcome :=
  match basics.operatorsL2.head?, basics.operatorsL1.head? with
  | some op2, some op1 =>
    TxOutcome.receipt
      (postTasksL1 basics.operatorsL1 env.nodeId
        (CrossChainTask.remoteDeployTask env.txHash bubbleID address data op2.rpc op1.opAddr)
        (storeBubContract
          (storeByteCode (moveBalance st env.callerAddress BubbleContractAddr amount)
            address (deployByteCode env st address))
          bubbleID { creator := env.callerAddress, address := address, amount := amount }))
  | _, _ => TxOutcome.crash

/-- The `remoteDeploy` handler (lines 158-254). -/
def remoteDeploy (env : EvmEnv) (st : ChainState) (bubbleID : Nat) (address : Addr)
    (amount : Int) (data : List Nat) : TxOutcome :=
  if env.gasOk = false then TxOutcome.rawErr RawErr.outOfGas st
  else match getBubbleInfo st bubbleID with
  | none => TxOutcome.bizFail BizErr.ErrBubbleNotExist st
  | some (basics, bubState) =>
    match env.minStakingAmount basics.size with
    | none => TxOutcome.rawErr RawErr.sizeConfigMissing st
    | some minStake =>
      if amount < minStake then TxOutcome.bizFail BizErr.ErrStakingAmountTooLow st
      else if st.balances env.callerAddress < amount then
        TxOutcome.rawErr (RawErr.rawBiz BizErr.ErrAccountNoEnough) st
      else if PreReleaseStatus ≤ bubState then TxOutcome.bizFail BizErr.ErrBubbleIsPreRelease st
      else if (deployByteCode env st address).isEmpty then
        TxOutcome.bizFail BizErr.ErrEmptyContractCode st
      else match st.contracts bubbleID address with
      | some _ => TxOutcome.bizFail BizErr.ErrContractIsExist st
      | none =>
        if env.txHash = ZeroHash then TxOutcome.nullResult st
        else remoteDeployPersist env st bubbleID address amount data basics

/-- The `remoteClear` handler (lines 256-283): the registry read of a
missing `(bubbleID, address)` pair yields a nil record with no error, and
`contractInfo.Creator` is dereferenced without a nil check, so the missing
case is a runtime panic. -/
def remoteClear (env : EvmEnv) (st : ChainState) (bubbleID : Nat) (address : Addr) : TxOutcome :=
  match st.contracts bubbleID address with
  | none => TxOutcome.crash
  | some contractInfo =>
    if env.callerAddress ≠ contractInfo.creator then
      TxOutcome.bizFail BizErr.ErrSenderIsNotCreator st
    else if env.txHash = ZeroHash then TxOutcome.nullResult st
    else
      TxOutcome.receipt
        (moveBalance (delBubContract st bubbleID address) BubbleContractAddr
          env.callerAddress contractInfo.amount)

/-- The `remoteCall` handler (lines 285-332). -/
def remoteCall (env : EvmEnv) (st : ChainState) (bubbleID : Nat) (contract : Addr)
    (data : List Nat) : TxOutcome :=
  if env.gasOk = false then TxOutcome.rawErr RawErr.outOfGas st
  else match getBubbleInfo st bubbleID with
  | none => TxOutcome.bizFail BizErr.ErrBubbleNotExist st
  | some (basics, _) =>
    match st.contracts bubbleID contract with
    | none => TxOutcome.bizFail BizErr.ErrContractNotExist st
    | some _ =>
      if env.txHash = ZeroHash then TxOutcome.nullResult st
      else match basics.operatorsL2.head?, basics.operatorsL1.head? with
      | some op2, some op1 =>
        TxOutcome.receipt
          (postTasksL1 basics.operatorsL1 env.nodeId
            (CrossChainTask.remoteCallTask env.txHash env.origin bubbleID contract data op2.rpc op1.opAddr)
            st)
      | _, _ => TxOutcome.crash

/-- The `remoteCallExecutor` handler (lines 334-380): restricted to the
bubble's primary sub-chain operator; the call context is switched to the
original caller and target contract and executed directly against the
parent virtual machine; a failed execution is a raw error during gas
estimation and the `ErrContractReturns` business error otherwise. -/
def remoteCallExecutor (env : EvmEnv) (st : ChainState) (caller : Addr)
    (_remoteTxHash : HashVal) (bubbleID : Nat) (contract : Addr) (data : List Nat) : TxOutcome :=
  if env.gasOk = false then TxOutcome.rawErr RawErr.outOfGas st
  else match getBubbleInfo st bubbleID with
  | none => TxOutcome.bizFail BizErr.ErrBubbleNotExist st
  | some (basics, _) =>
    match basics.operatorsL2.head? with
    | none => TxOutcome.crash
    | some op2 =>
      if env.callerAddress ≠ op2.opAddr then TxOutcome.bizFail BizErr.ErrSenderIsNotOperator st
      else if (env.getCode contract).isEmpty then TxOutcome.bizFail BizErr.ErrEmptyContractCode st
      else if env.runEvm caller contract (CallInput.raw data) then TxOutcome.receipt st
      else if env.txHash = ZeroHash then TxOutcome.rawErr RawErr.evmCallFailed st
      else TxOutcome.bizFail BizErr.ErrContractReturns st

/-- The state carried by an outcome, when the operation did not panic. -/
def TxOutcome.state? : TxOutcome → Option ChainState
  | TxOutcome.nullResult st => some st
  | TxOutcome.receipt st => some st
  | TxOutcome.bizFail _ st => some st
  | TxOutcome.rawErr _ st => some st
  | TxOutcome.crash => none

/-- Whether the outcome is a success receipt. -/
def TxOutcome.isReceipt : TxOutcome → Bool
  | TxOutcome.receipt _ => true
  | _ => false

/-- Whether the outcome is the `(nil, nil)` null result. -/
def TxOutcome.isNull : TxOutcome → Bool
  | TxOutcome.nullResult _ => true
  | _ => false

/-- Whether the outcome is a structured business failure. -/
def TxOutcome.isBizFail : TxOutcome → Bool
  | TxOutcome.bizFail _ _ => true
  | _ => false

/-- Whether the outcome is any failure (structured or raw). -/
def TxOutcome.isFailure : TxOutcome → Bool
  | TxOutcome.bizFail _ _ => true
  | TxOutcome.rawErr _ _ => true
  | _ => false

/-- The business-error code of the outcome, if any. -/
def TxOutcome.bizCode? : TxOutcome → Option BizErr
  | TxOutcome.bizFail e _ => some e
  | _ => none

/-- The balance of an address in the outcome's state. -/
def TxOutcome.balanceOf (o : TxOutcome) (a : Addr) : Option Int :=
  o.state?.map (fun st => st.balances a)

/-- The stored asset record of `(bid, a)` in the outcome's state
(`none` when the operation panicked). -/
def TxOutcome.assetOf (o : TxOutcome) (bid : Nat) (a : Addr) : Option (Option AccountAsset) :=
  o.state?.map (fun st => st.accAssets bid a)

/-- The per-type transaction-hash history of `bid` in the outcome's state. -/
def TxOutcome.txHashesOf (o : TxOutcome) (bid : Nat) (t : BubTxType) : Option (List HashVal) :=
  o.state?.map (fun st => st.txHashes bid t)

/-- Two states agree on every plugin-persisted record and on the task
queue (balances may differ). -/
def sameRecords (s t : ChainState) : Prop :=
  s.accAssets = t.accAssets ∧ s.accList = t.accList ∧ s.txHashes = t.txHashes ∧
  s.l2ToL1 = t.l2ToL1 ∧ s.contracts = t.contracts ∧ s.codeCache = t.codeCache ∧
  s.tasks = t.tasks

/-- All plugin-persisted records of the outcome's state agree with `st`,
and no cross-chain task was enqueued.  (Balances are judged separately:
the staking and withdrawal handlers move native balances before their
estimation cut-off.) -/
def recordsPreserved (o : TxOutcome) (st : ChainState) : Prop :=
  ∀ st1, o.state? = some st1 → sameRecords st1 st

/-- The outcome's state has the same balances as `st`. -/
def balancesPreserved (o : TxOutcome) (st : ChainState) : Prop :=
  ∀ st1, o.state? = some st1 → st1.balances = st.balances

/-- A token entry with the same address and a zero balance, as built by
the withdrawal loop for the reset asset. -/
def zeroToken (t : AccTokenAsset) : AccTokenAsset :=
  { tokenAddr := t.tokenAddr, balance := 0 }

/-- Test fixture: the basics of bubble 1 — size class 2, one main-chain
operator (node 7, address 43) and one sub-chain operator (node 8, RPC 9,
address 41). -/
def exBasics : BubBasics :=
  { bubbleId := 1, size := 2,
    operatorsL1 := [{ nodeId := 7, opAddr := 43 }],
    operatorsL2 := [{ nodeId := 8, rpc := 9, opAddr := 41 }] }

/-- Test fixture: a contract registered in bubble 1 at address 60 by
creator 42 with escrow 3. -/
def exContract : ContractInfo := { creator := 42, address := 60, amount := 3 }

/-- Test fixture: a chain state holding bubble 1 with the given lifecycle
status, an optional stored asset for account 40, and the given account
list; account 40 and custody both start with balance 100; contract 60 is
registered; no history, no mappings, no tasks. -/
def testSt (status : Nat) (acc40Asset : Option AccountAsset) (accs : List Addr) : ChainState :=
  { balances := fun a => if a = 40 then 100 else if a = BubbleContractAddr then 100 else 0,
    bubBasics := fun b => if b = 1 then some exBasics else none,
    bubStatus := fun b => if b = 1 then some status else none,
    accAssets := fun b a => if b = 1 then (if a = 40 then acc40Asset else none) else none,
    accList := fun b => if b = 1 then accs else [],
    txHashes := fun _ _ => [],
    l2ToL1 := fun _ _ => none,
    contracts := fun b a => if b = 1 then (if a = 60 then some exContract else none) else none,
    codeCache := fun _ => none,
    tasks := [] }

/-- Test fixture: an execution environment with the given transaction hash
and sender; origin equals the sender, the local node id is 7, gas is
available, addresses 50 and 60 carry code, every nested virtual-machine
call behaves as `runOk`, and size class 2 has minimum staking amount 10. -/
def testEnv (tx : HashVal) (sender : Addr) (runOk : Bool) : EvmEnv :=
  { txHash := tx, callerAddress := sender, origin := sender, nodeId := 7, gasOk := true,
    getCode := fun a => if a = 50 then [1] else if a = 60 then [1] else [],
    runEvm := fun _ _ _ => runOk,
    minStakingAmount := fun s => if s = 2 then some 10 else none }

theorem sameRecords_refl (st : ChainState) : sameRecords st st :=
  ⟨rfl, rfl, rfl, rfl, rfl, rfl, rfl⟩

theorem sameRecords_moveBalance (st : ChainState) (src dst : Addr) (amt : Int) :
    sameRecords (moveBalance st src dst amt) st :=
  ⟨rfl, rfl, rfl, rfl, rfl, rfl, rfl⟩

theorem sameRecords_stakeNative (st : ChainState) (sender : Addr) (amt : Int) :
    sameRecords (stakeNative st sender amt) st := by
  unfold stakeNative
  split
  · exact sameRecords_moveBalance st sender BubbleContractAddr amt
  · exact sameRecords_refl st

theorem sameRecords_withdrawNative (st : ChainState) (sender : Addr) (amt : Int) :
    sameRecords (withdrawNative st sender amt) st := by
  unfold withdrawNative
  split
  · exact sameRecords_moveBalance st BubbleContractAddr sender amt
  · exact sameRecords_refl st

theorem moveBalance_dst (st : ChainState) (src dst : Addr) (amt : Int) (h : dst ≠ src) :
    (moveBalance st src dst amt).balances dst = st.balances dst + amt := by
  unfold moveBalance
  simp [h]

theorem moveBalance_src (st : ChainState) (src dst : Addr) (amt : Int) (h : dst ≠ src) :
    (moveBalance st src dst amt).balances src = st.balances src - amt := by
  unfold moveBalance
  simp [Ne.symm h]

/-- `C9`: for every `(bubbleID, address)` pair with no registered
`ContractInfo`, the contract-registry read yields a nil record with no
error, and `remoteClear` dereferences that nil record's `Creator` field
without a nil check, so `remoteClear` is not total on such inputs — the
model makes the missing case the runtime-panic outcome. -/
theorem remoteClear_missing_contract_crashes (env : EvmEnv) (st : ChainState)
    (bid : Nat) (addr : Addr) (h : st.contracts bid addr = none) :
    remoteClear env st bid addr = TxOutcome.crash := by
  unfold remoteClear
  simp [h]

/-- `C9` witness. -/
theorem remoteClear_missing_contract_crashes_witness :
    remoteClear (testEnv 5 42 true) (testSt CreatedStatus none []) 1 61 = TxOutcome.crash :=
  remoteClear_missing_contract_crashes (testEnv 5 42 true) (testSt CreatedStatus none []) 1 61
    (by decide)

/-- `C10`: a caller with no stored account asset in a Released bubble gets
the null result with no error from `withdrewToken` — the same outcome as
an estimation-mode probe — with the state completely unchanged, instead of
a business error. -/
theorem withdrewToken_no_asset_null (env : EvmEnv) (st : ChainState) (bid : Nat)
    (b : BubBasics) (hg : env.gasOk = true) (hb : st.bubBasics bid = some b)
    (hs : st.bubStatus bid = some ReleasedStatus)
    (ha : st.accAssets bid env.callerAddress = none) :
    withdrewToken env st bid = TxOutcome.nullResult st := by
  unfold withdrewToken WithdrewToken
  simp [hg, hb, hs, ha, wrapTx]

/-- `C10` witness. -/
theorem withdrewToken_no_asset_null_witness :
    withdrewToken (testEnv 2 40 true) (testSt ReleasedStatus none []) 1 =
      TxOutcome.nullResult (testSt ReleasedStatus none []) :=
  withdrewToken_no_asset_null (testEnv 2 40 true) (testSt ReleasedStatus none []) 1 exBasics
    (by decide) (by decide) (by decide) (by decide)

/-- `C3`: the lifecycle guards are mutually exclusive at the top of every
asset-moving operation — a Released status makes `stakingToken` and
`settleBubble` fail with a business error, a non-Released status makes
`withdrewToken` fail with a business error, each before any mutation. -/
theorem lifecycle_guards_mutually_exclusive (env : EvmEnv) (st : ChainState) (bid : Nat)
    (asset : AccountAsset) (l2h : HashVal) (info : SettlementInfo) (s : Nat) :
    (env.gasOk = true → st.bubStatus bid = some ReleasedStatus →
      (stakingToken env st bid asset).isBizFail = true ∧
      (stakingToken env st bid asset).state? = some st) ∧
    (env.gasOk = true → st.bubStatus bid = some ReleasedStatus →
      (settleBubble env st l2h bid info).isBizFail = true ∧
      (settleBubble env st l2h bid info).state? = some st) ∧
    (env.gasOk = true → st.bubStatus bid = some s → s ≠ ReleasedStatus →
      (withdrewToken env st bid).isBizFail = true ∧
      (withdrewToken env st bid).state? = some st) := by
  refine ⟨fun hg hs => ?_, fun hg hs => ?_, fun hg hs hne => ?_⟩
  · unfold stakingToken StakingToken
    by_cases hca : env.callerAddress = asset.account
    · cases hbb : st.bubBasics bid with
      | none => simp [hg, hca, hbb, wrapTx, TxOutcome.isBizFail, TxOutcome.state?]
      | some basics => simp [hg, hca, hbb, hs, wrapTx, TxOutcome.isBizFail, TxOutcome.state?]
    · simp [hg, hca, wrapTx, TxOutcome.isBizFail, TxOutcome.state?]
  · unfold settleBubble SettleBubble
    cases hbb : st.bubBasics bid with
    | none => simp [hg, hbb, wrapTx, TxOutcome.isBizFail, TxOutcome.state?]
    | some basics => simp [hg, hbb, hs, wrapTx, TxOutcome.isBizFail, TxOutcome.state?]
  · unfold withdrewToken WithdrewToken
    cases hbb : st.bubBasics bid with
    | none => simp [hg, hbb, wrapTx, TxOutcome.isBizFail, TxOutcome.state?]
    | some basics => simp [hg, hbb, hs, hne, wrapTx, TxOutcome.isBizFail, TxOutcome.state?]

/-- `C3` witness. -/
theorem lifecycle_guards_mutually_exclusive_witness :
    ((stakingToken (testEnv 1 40 true) (testSt ReleasedStatus none []) 1
        { account := 40, nativeAmount := 5, tokenAssets := [] }).isBizFail = true ∧
      (stakingToken (testEnv 1 40 true) (testSt ReleasedStatus none []) 1
        { account := 40, nativeAmount := 5, tokenAssets := [] }).state? =
        some (testSt ReleasedStatus none [])) ∧
    ((settleBubble (testEnv 1 41 true) (testSt ReleasedStatus none []) 77 1
        { accAssets := [] }).isBizFail = true ∧
      (settleBubble (testEnv 1 41 true) (testSt ReleasedStatus none []) 77 1
        { accAssets := [] }).state? = some (testSt ReleasedStatus none [])) ∧
    ((withdrewToken (testEnv 1 40 true) (testSt CreatedStatus none []) 1).isBizFail = true ∧
      (withdrewToken (testEnv 1 40 true) (testSt CreatedStatus none []) 1).state? =
        some (testSt CreatedStatus none [])) := by
  refine ⟨?_, ?_, ?_⟩
  · exact (lifecycle_guards_mutually_exclusive (testEnv 1 40 true) (testSt ReleasedStatus none [])
      1 { account := 40, nativeAmount := 5, tokenAssets := [] } 77 { accAssets := [] }
      CreatedStatus).1 (by decide) (by decide)
  · exact (lifecycle_guards_mutually_exclusive (testEnv 1 41 true) (testSt ReleasedStatus none [])
      1 { account := 40, nativeAmount := 5, tokenAssets := [] } 77 { accAssets := [] }
      CreatedStatus).2.1 (by decide) (by decide)
  · exact (lifecycle_guards_mutually_exclusive (testEnv 1 40 true) (testSt CreatedStatus none [])
      1 { account := 40, nativeAmount := 5, tokenAssets := [] } 77 { accAssets := [] }
      CreatedStatus).2.2 (by decide) (by decide) (by decide)

theorem buildNewAssets_missing (st : ChainState) (bid : Nat) :
    ∀ assets : List AccountAsset,
      assets.any (fun a => (st.accAssets bid a.account).isNone) = true →
      buildNewAssets st bid assets = Except.error (VMErr.biz BizErr.ErrSettleAccNoExist) := by
  intro assets
  induction assets with
  | nil => intro h; simp at h
  | cons a rest ih =>
    intro h
    unfold buildNewAssets
    cases hl : st.accAssets bid a.account with
    | none => rfl
    | some x =>
      have hrest : rest.any (fun a => (st.accAssets bid a.account).isNone) = true := by
        simp only [List.any_cons, hl, Option.isNone_some, Bool.false_or] at h
        exact h
      rw [ih hrest]

/-- `C4`: a settlement batch whose account count differs from the bubble's
stored account list, or that names an account with no stored asset record,
is rejected with a business error and performs no persistent writes.
(The bubble's operator lists are non-empty by the data-model invariant,
stated as the `hop` hypothesis.) -/
theorem settleBubble_rejects_bad_batch (env : EvmEnv) (st : ChainState)
    (l2h : HashVal) (bid : Nat) (info : SettlementInfo)
    (hop : (st.bubBasics bid).all (fun b => !b.operatorsL2.isEmpty) = true) :
    (env.gasOk = true → (st.accList bid).length ≠ info.accAssets.length →
      (settleBubble env st l2h bid info).isBizFail = true ∧
      (settleBubble env st l2h bid info).state? = some st) ∧
    (env.gasOk = true →
      info.accAssets.any (fun a => (st.accAssets bid a.account).isNone) = true →
      (settleBubble env st l2h bid info).isBizFail = true ∧
      (settleBubble env st l2h bid info).state? = some st) := by
  constructor
  · intro hg hlen
    unfold settleBubble SettleBubble
    cases hbb : st.bubBasics bid with
    | none => simp [hg, hbb, wrapTx, TxOutcome.isBizFail, TxOutcome.state?]
    | some basics =>
      cases hbs : st.bubStatus bid with
      | none => simp [hg, hbb, hbs, wrapTx, TxOutcome.isBizFail, TxOutcome.state?]
      | some s =>
        rw [hbb] at hop
        cases hl2 : basics.operatorsL2 with
        | nil => simp [hl2] at hop
        | cons op2 ops =>
          by_cases hrel : s = ReleasedStatus
          · simp [hg, hbb, hbs, hrel, wrapTx, TxOutcome.isBizFail, TxOutcome.state?]
          · by_cases hsend : env.callerAddress = op2.opAddr
            · simp [hg, hbb, hbs, hrel, hl2, hsend, hlen, wrapTx, TxOutcome.isBizFail,
                TxOutcome.state?]
            · simp [hg, hbb, hbs, hrel, hl2, hsend, wrapTx, TxOutcome.isBizFail,
                TxOutcome.state?]
  · intro hg hmiss
    unfold settleBubble SettleBubble
    cases hbb : st.bubBasics bid with
    | none => simp [hg, hbb, wrapTx, TxOutcome.isBizFail, TxOutcome.state?]
    | some basics =>
      cases hbs : st.bubStatus bid with
      | none => simp [hg, hbb, hbs, wrapTx, TxOutcome.isBizFail, TxOutcome.state?]
      | some s =>
        rw [hbb] at hop
        cases hl2 : basics.operatorsL2 with
        | nil => simp [hl2] at hop
        | cons op2 ops =>
          by_cases hrel : s = ReleasedStatus
          · simp [hg, hbb, hbs, hrel, wrapTx, TxOutcome.isBizFail, TxOutcome.state?]
          · by_cases hsend : env.callerAddress = op2.opAddr
            · by_cases hlen : (st.accList bid).length = info.accAssets.length
              · simp [hg, hbb, hbs, hrel, hl2, hsend, hlen,
                  buildNewAssets_missing st bid info.accAssets hmiss, wrapTx,
                  TxOutcome.isBizFail, TxOutcome.state?]
              · simp [hg, hbb, hbs, hrel, hl2, hsend, hlen, wrapTx, TxOutcome.isBizFail,
                  TxOutcome.state?]
            · simp [hg, hbb, hbs, hrel, hl2, hsend, wrapTx, TxOutcome.isBizFail,
                TxOutcome.state?]

/-- `C4` witness: a bubble with one registered account rejects a
two-element batch (count mismatch) and a one-element batch naming an
account with no stored asset. -/
theorem settleBubble_rejects_bad_batch_witness :
    ((settleBubble (testEnv 3 41 true)
        (testSt CreatedStatus (some { account := 40, nativeAmount := 5, tokenAssets := [] }) [40])
        77 1 { accAssets := [{ account := 40, nativeAmount := 1, tokenAssets := [] },
                             { account := 44, nativeAmount := 1, tokenAssets := [] }] }).isBizFail = true ∧
      (settleBubble (testEnv 3 41 true)
        (testSt CreatedStatus (some { account := 40, nativeAmount := 5, tokenAssets := [] }) [40])
        77 1 { accAssets := [{ account := 40, nativeAmount := 1, tokenAssets := [] },
                             { account := 44, nativeAmount := 1, tokenAssets := [] }] }).state? =
        some (testSt CreatedStatus (some { account := 40, nativeAmount := 5, tokenAssets := [] }) [40])) ∧
    ((settleBubble (testEnv 3 41 true)
        (testSt CreatedStatus (some { account := 40, nativeAmount := 5, tokenAssets := [] }) [40])
        77 1 { accAssets := [{ account := 44, nativeAmount := 1, tokenAssets := [] }] }).isBizFail = true ∧
      (settleBubble (testEnv 3 41 true)
        (testSt CreatedStatus (some { account := 40, nativeAmount := 5, tokenAssets := [] }) [40])
        77 1 { accAssets := [{ account := 44, nativeAmount := 1, tokenAssets := [] }] }).state? =
        some (testSt CreatedStatus (some { account := 40, nativeAmount := 5, tokenAssets := [] }) [40])) := by
  constructor
  · exact (settleBubble_rejects_bad_batch (testEnv 3 41 true)
      (testSt CreatedStatus (some { account := 40, nativeAmount := 5, tokenAssets := [] }) [40])
      77 1 { accAssets := [{ account := 40, nativeAmount := 1, tokenAssets := [] },
                           { account := 44, nativeAmount := 1, tokenAssets := [] }] }
      (by decide)).1 (by decide) (by decide)
  · exact (settleBubble_rejects_bad_batch (testEnv 3 41 true)
      (testSt CreatedStatus (some { account := 40, nativeAmount := 5, tokenAssets := [] }) [40])
      77 1 { accAssets := [{ account := 44, nativeAmount := 1, tokenAssets := [] }] }
      (by decide)).2 (by decide) (by decide)

theorem buildNewAssets_error_eq (st : ChainState) (bid : Nat) :
    ∀ (assets : List AccountAsset) (e : VMErr),
      buildNewAssets st bid assets = Except.error e →
      e = VMErr.biz BizErr.ErrSettleAccNoExist := by
  intro assets
  induction assets with
  | nil => intro e h; simp [buildNewAssets] at h
  | cons a rest ih =>
    intro e h
    unfold buildNewAssets at h
    cases hl : st.accAssets bid a.account with
    | none => rw [hl] at h; simp at h; exact h.symm
    | some x =>
      rw [hl] at h
      cases hr : buildNewAssets st bid rest with
      | error e2 => rw [hr] at h; simp at h; rw [← h]; exact ih e2 hr
      | ok ns => rw [hr] at h; simp at h

/-- `C5`: for an existing bubble, `settleBubble` fails with a business
error whenever the sender differs from the bubble's first (index-0)
sub-chain operator address and never produces the not-the-operator error
otherwise, and `remoteCallExecutor` fails with exactly the
not-the-operator business error for a wrong sender and never produces it
for the right one. -/
theorem operator_authorization (env : EvmEnv) (st : ChainState) (l2h : HashVal)
    (bid : Nat) (info : SettlementInfo) (caller : Addr) (rth : HashVal)
    (contract : Addr) (data : List Nat) (b : BubBasics) (op2 : OperatorL2) (s : Nat)
    (hb : st.bubBasics bid = some b) (hh : b.operatorsL2.head? = some op2) :
    (env.gasOk = true → env.callerAddress ≠ op2.opAddr →
      (settleBubble env st l2h bid info).isBizFail = true ∧
      (settleBubble env st l2h bid info).state? = some st) ∧
    (env.callerAddress = op2.opAddr →
      (settleBubble env st l2h bid info).bizCode? ≠ some BizErr.ErrIsNotSubChainOpAddr) ∧
    (env.gasOk = true → st.bubStatus bid = some s → env.callerAddress ≠ op2.opAddr →
      remoteCallExecutor env st caller rth bid contract data =
        TxOutcome.bizFail BizErr.ErrSenderIsNotOperator st) ∧
    (env.callerAddress = op2.opAddr →
      (remoteCallExecutor env st caller rth bid contract data).bizCode? ≠
        some BizErr.ErrSenderIsNotOperator) := by
  refine ⟨fun hg hsend => ?_, fun hsend => ?_, fun hg hst hsend => ?_, fun hsend => ?_⟩
  · unfold settleBubble SettleBubble
    cases hbs : st.bubStatus bid with
    | none => simp [hg, hb, hbs, wrapTx, TxOutcome.isBizFail, TxOutcome.state?]
    | some s2 =>
      by_cases hrel : s2 = ReleasedStatus
      · simp [hg, hb, hbs, hrel, wrapTx, TxOutcome.isBizFail, TxOutcome.state?]
      · simp [hg, hb, hbs, hrel, hh, hsend, wrapTx, TxOutcome.isBizFail, TxOutcome.state?]
  · unfold settleBubble SettleBubble
    by_cases hg : env.gasOk = true
    · cases hbs : st.bubStatus bid with
      | none => simp [hg, hb, hbs, wrapTx, TxOutcome.bizCode?]
      | some s2 =>
        by_cases hrel : s2 = ReleasedStatus
        · simp [hg, hb, hbs, hrel, wrapTx, TxOutcome.bizCode?]
        · by_cases hlen : (st.accList bid).length = info.accAssets.length
          · cases hba : buildNewAssets st bid info.accAssets with
            | error e =>
              have he := buildNewAssets_error_eq st bid info.accAssets e hba
              subst he
              simp [hg, hb, hbs, hrel, hh, hsend, hlen, hba, wrapTx, TxOutcome.bizCode?]
            | ok ns =>
              by_cases hz : env.txHash = ZeroHash <;>
                simp [hg, hb, hbs, hrel, hh, hsend, hlen, hba, hz, wrapTx, TxOutcome.bizCode?]
          · simp [hg, hb, hbs, hrel, hh, hsend, hlen, wrapTx, TxOutcome.bizCode?]
    · simp at hg
      simp [hg, TxOutcome.bizCode?]
  · unfold remoteCallExecutor
    simp [hg, getBubbleInfo, hb, hst, hh, hsend]
  · unfold remoteCallExecutor
    by_cases hg : env.gasOk = true
    · cases hbs : st.bubStatus bid with
      | none => simp [hg, getBubbleInfo, hb, hbs, TxOutcome.bizCode?]
      | some s2 =>
        by_cases hcode : (env.getCode contract).isEmpty = true
        · simp [hg, getBubbleInfo, hb, hbs, hh, hsend, hcode, TxOutcome.bizCode?]
        · by_cases hrun : env.runEvm caller contract (CallInput.raw data) = true
          · simp [hg, getBubbleInfo, hb, hbs, hh, hsend, hcode, hrun, TxOutcome.bizCode?]
          · by_cases hz : env.txHash = ZeroHash <;>
              simp [hg, getBubbleInfo, hb, hbs, hh, hsend, hcode, hrun, hz, TxOutcome.bizCode?]
    · simp at hg
      simp [hg, TxOutcome.bizCode?]

/-- `C5` witness: sender 40 is rejected, sender 41 (the primary sub-chain
operator of the fixture bubble) passes the authorization guard. -/
theorem operator_authorization_witness :
    ((settleBubble (testEnv 3 40 true) (testSt CreatedStatus none []) 77 1
        { accAssets := [] }).isBizFail = true ∧
      (settleBubble (testEnv 3 40 true) (testSt CreatedStatus none []) 77 1
        { accAssets := [] }).state? = some (testSt CreatedStatus none [])) ∧
    ((settleBubble (testEnv 3 41 true) (testSt CreatedStatus none []) 77 1
        { accAssets := [] }).bizCode? ≠ some BizErr.ErrIsNotSubChainOpAddr) ∧
    (remoteCallExecutor (testEnv 5 40 true) (testSt CreatedStatus none []) 42 0 1 60 [1] =
      TxOutcome.bizFail BizErr.ErrSenderIsNotOperator (testSt CreatedStatus none [])) ∧
    ((remoteCallExecutor (testEnv 5 41 true) (testSt CreatedStatus none []) 42 0 1 60 [1]).bizCode? ≠
      some BizErr.ErrSenderIsNotOperator) := by
  refine ⟨?_, ?_, ?_, ?_⟩
  · exact (operator_authorization (testEnv 3 40 true) (testSt CreatedStatus none []) 77 1
      { accAssets := [] } 42 0 60 [1] exBasics { nodeId := 8, rpc := 9, opAddr := 41 }
      CreatedStatus (by decide) (by decide)).1 (by decide) (by decide)
  · exact (operator_authorization (testEnv 3 41 true) (testSt CreatedStatus none []) 77 1
      { accAssets := [] } 42 0 60 [1] exBasics { nodeId := 8, rpc := 9, opAddr := 41 }
      CreatedStatus (by decide) (by decide)).2.1 (by decide)
  · exact (operator_authorization (testEnv 5 40 true) (testSt CreatedStatus none []) 77 1
      { accAssets := [] } 42 0 60 [1] exBasics { nodeId := 8, rpc := 9, opAddr := 41 }
      CreatedStatus (by decide) (by decide)).2.2.1 (by decide) (by decide) (by decide)
  · exact (operator_authorization (testEnv 5 41 true) (testSt CreatedStatus none []) 77 1
      { accAssets := [] } 42 0 60 [1] exBasics { nodeId := 8, rpc := 9, opAddr := 41 }
      CreatedStatus (by decide) (by decide)).2.2.2 (by decide)

/-- `C6`: for an existing bubble, `remoteDeploy` rejects an amount
strictly below the size class's minimum staking amount with a business
error, never raises that error when the amount is at least the minimum
(so the exact minimum passes the check), and rejects every deploy on a
bubble whose status is PreRelease or beyond. -/
theorem remoteDeploy_min_and_prerelease (env : EvmEnv) (st : ChainState) (bid : Nat)
    (addr : Addr) (amt : Int) (data : List Nat) (b : BubBasics) (s : Nat) (m : Int)
    (hb : getBubbleInfo st bid = some (b, s)) (hm : env.minStakingAmount b.size = some m) :
    (env.gasOk = true → amt < m →
      remoteDeploy env st bid addr amt data =
        TxOutcome.bizFail BizErr.ErrStakingAmountTooLow st) ∧
    (m ≤ amt →
      (remoteDeploy env st bid addr amt data).bizCode? ≠ some BizErr.ErrStakingAmountTooLow) ∧
    (PreReleaseStatus ≤ s →
      (remoteDeploy env st bid addr amt data).isFailure = true ∧
      (remoteDeploy env st bid addr amt data).state? = some st) := by
  refine ⟨fun hg hlt => ?_, fun hge => ?_, fun hpre => ?_⟩
  · unfold remoteDeploy
    simp [hg, hb, hm, hlt]
  · unfold remoteDeploy
    have hnlt : ¬ amt < m := not_lt.2 hge
    by_cases hg : env.gasOk = true
    · by_cases hbal : st.balances env.callerAddress < amt
      · simp [hg, hb, hm, hnlt, hbal, TxOutcome.bizCode?]
      · by_cases hpre : PreReleaseStatus ≤ s
        · simp [hg, hb, hm, hnlt, hbal, hpre, TxOutcome.bizCode?]
        · by_cases hcode : (deployByteCode env st addr).isEmpty = true
          · simp [hg, hb, hm, hnlt, hbal, hpre, hcode, TxOutcome.bizCode?]
          · cases hct : st.contracts bid addr with
            | some ci => simp [hg, hb, hm, hnlt, hbal, hpre, hcode, hct, TxOutcome.bizCode?]
            | none =>
              by_cases hz : env.txHash = ZeroHash
              · simp [hg, hb, hm, hnlt, hbal, hpre, hcode, hct, hz, TxOutcome.bizCode?]
              · unfold remoteDeployPersist
                cases hh2 : b.operatorsL2.head? with
                | none =>
                  simp [hg, hb, hm, hnlt, hbal, hpre, hcode, hct, hz, hh2, TxOutcome.bizCode?]
                | some op2 =>
                  cases hh1 : b.operatorsL1.head? with
                  | none =>
                    simp [hg, hb, hm, hnlt, hbal, hpre, hcode, hct, hz, hh2, hh1,
                      TxOutcome.bizCode?]
                  | some op1 =>
                    simp [hg, hb, hm, hnlt, hbal, hpre, hcode, hct, hz, hh2, hh1,
                      TxOutcome.bizCode?]
    · simp at hg
      simp [hg, TxOutcome.bizCode?]
  · unfold remoteDeploy
    by_cases hg : env.gasOk = true
    · by_cases hlt : amt < m
      · simp [hg, hb, hm, hlt, TxOutcome.isFailure, TxOutcome.state?]
      · by_cases hbal : st.balances env.callerAddress < amt
        · simp [hg, hb, hm, hlt, hbal, TxOutcome.isFailure, TxOutcome.state?]
        · simp [hg, hb, hm, hlt, hbal, hpre, TxOutcome.isFailure, TxOutcome.state?]
    · simp at hg
      simp [hg, TxOutcome.isFailure, TxOutcome.state?]

/-- `C6` witness: with minimum 10, amount 9 is rejected with the
too-low business error, amount 10 never raises it, and a PreRelease
bubble rejects the deploy. -/
theorem remoteDeploy_min_and_prerelease_witness :
    (remoteDeploy (testEnv 4 40 true) (testSt CreatedStatus none []) 1 50 9 [] =
      TxOutcome.bizFail BizErr.ErrStakingAmountTooLow (testSt CreatedStatus none [])) ∧
    ((remoteDeploy (testEnv 4 40 true) (testSt CreatedStatus none []) 1 50 10 []).bizCode? ≠
      some BizErr.ErrStakingAmountTooLow) ∧
    ((remoteDeploy (testEnv 4 40 true) (testSt PreReleaseStatus none []) 1 50 10 []).isFailure = true ∧
      (remoteDeploy (testEnv 4 40 true) (testSt PreReleaseStatus none []) 1 50 10 []).state? =
        some (testSt PreReleaseStatus none [])) := by
  refine ⟨?_, ?_, ?_⟩
  · exact (remoteDeploy_min_and_prerelease (testEnv 4 40 true) (testSt CreatedStatus none [])
      1 50 9 [] exBasics CreatedStatus 10 (by decide) (by decide)).1 (by decide) (by decide)
  · exact (remoteDeploy_min_and_prerelease (testEnv 4 40 true) (testSt CreatedStatus none [])
      1 50 10 [] exBasics CreatedStatus 10 (by decide) (by decide)).2.1 (by decide)
  · exact (remoteDeploy_min_and_prerelease (testEnv 4 40 true) (testSt PreReleaseStatus none [])
      1 50 10 [] exBasics PreReleaseStatus 10 (by decide) (by decide)).2.2 (by decide)

theorem withdrawTokens_ok_shape (env : EvmEnv) (sender : Addr) :
    ∀ (tokens : List AccTokenAsset) (rs : List AccTokenAsset),
      withdrawTokens env sender tokens = Except.ok rs → rs = tokens.map zeroToken := by
  intro tokens
  induction tokens with
  | nil => intro rs h; simp [withdrawTokens] at h; subst h; rfl
  | cons t rest ih =>
    intro rs h
    unfold withdrawTokens at h
    by_cases hcode : (env.getCode t.tokenAddr).isEmpty = true
    · rw [if_pos hcode] at h; simp at h
    · rw [if_neg hcode] at h
      by_cases hrun :
        env.runEvm BubbleContractAddr t.tokenAddr (encodeTransferFuncCall sender t.balance) = true
      · rw [if_pos hrun] at h
        cases hr : withdrawTokens env sender rest with
        | error e => rw [hr] at h; simp at h
        | ok rs2 =>
          rw [hr] at h
          simp at h
          rw [← h, ih rs2 hr]
          rfl
      · rw [if_neg hrun] at h
        by_cases hz : env.txHash = ZeroHash
        · rw [if_pos hz] at h; simp at h
        · rw [if_neg hz] at h; simp at h

/-- `C7`: every successful non-estimation `withdrewToken` call overwrites
the caller's stored asset with a zeroed asset — same account, zero native
amount, and the same token addresses each with a zero balance — rather
than deleting it, and appends the transaction hash to the bubble's
withdrawal history. -/
theorem withdrewToken_success_zeroes_and_records (env : EvmEnv) (st : ChainState)
    (bid : Nat) (asset : AccountAsset)
    (ha : st.accAssets bid env.callerAddress = some asset)
    (hz : env.txHash ≠ ZeroHash)
    (hr : (withdrewToken env st bid).isReceipt = true) :
    (withdrewToken env st bid).assetOf bid env.callerAddress =
      some (some { account := env.callerAddress, nativeAmount := 0,
                   tokenAssets := asset.tokenAssets.map zeroToken }) ∧
    (withdrewToken env st bid).txHashesOf bid BubTxType.WithdrewToken =
      some (st.txHashes bid BubTxType.WithdrewToken ++ [env.txHash]) := by
  unfold withdrewToken at hr ⊢
  by_cases hg : env.gasOk = false
  · rw [if_pos hg] at hr; simp [TxOutcome.isReceipt] at hr
  · rw [if_neg hg] at hr ⊢
    cases hbb : st.bubBasics bid with
    | none =>
      unfold WithdrewToken at hr
      simp only [hbb] at hr
      simp [wrapTx, TxOutcome.isReceipt] at hr
    | some b =>
      cases hbs : st.bubStatus bid with
      | none =>
        unfold WithdrewToken at hr
        simp only [hbb, hbs] at hr
        simp [wrapTx, TxOutcome.isReceipt] at hr
      | some s =>
        by_cases hrel : s ≠ ReleasedStatus
        · unfold WithdrewToken at hr
          simp only [hbb, hbs] at hr
          rw [if_pos hrel] at hr
          simp [wrapTx, TxOutcome.isReceipt] at hr
        · have key : WithdrewToken env st bid =
              withdrewTokenRun env (withdrawNative st env.callerAddress asset.nativeAmount)
                bid asset := by
            unfold WithdrewToken
            simp only [hbb, hbs, ha]
            rw [if_neg hrel]
          rw [key] at hr ⊢
          unfold withdrewTokenRun at hr ⊢
          cases hw : withdrawTokens env env.callerAddress asset.tokenAssets with
          | error e =>
            simp only [hw] at hr
            cases e <;> simp [wrapTx, TxOutcome.isReceipt] at hr
          | ok rs =>
            simp only [hw]
            rw [if_neg hz]
            have hrs := withdrawTokens_ok_shape env env.callerAddress asset.tokenAssets rs hw
            subst hrs
            obtain ⟨hA, hL, hT, _⟩ :=
              sameRecords_withdrawNative st env.callerAddress asset.nativeAmount
            constructor
            · simp [wrapTx, TxOutcome.assetOf, TxOutcome.state?, storeTxHashToBub,
                storeAccAssetToBub]
            · simp [wrapTx, TxOutcome.txHashesOf, TxOutcome.state?, storeTxHashToBub,
                storeAccAssetToBub, hT]

/-- `C7` witness: withdrawing a stored asset of 5 native plus one token
entry leaves a stored zeroed asset and appends hash 2 to the history. -/
theorem withdrewToken_success_zeroes_and_records_witness :
    ((withdrewToken (testEnv 2 40 true)
        (testSt ReleasedStatus
          (some { account := 40, nativeAmount := 5,
                  tokenAssets := [{ tokenAddr := 50, balance := 7 }] }) [40]) 1).assetOf 1 40 =
      some (some { account := 40, nativeAmount := 0,
                   tokenAssets := [{ tokenAddr := 50, balance := 0 }] })) ∧
    ((withdrewToken (testEnv 2 40 true)
        (testSt ReleasedStatus
          (some { account := 40, nativeAmount := 5,
                  tokenAssets := [{ tokenAddr := 50, balance := 7 }] }) [40]) 1).txHashesOf 1
        BubTxType.WithdrewToken = some [2]) :=
  withdrewToken_success_zeroes_and_records (testEnv 2 40 true)
    (testSt ReleasedStatus
      (some { account := 40, nativeAmount := 5,
              tokenAssets := [{ tokenAddr := 50, balance := 7 }] }) [40]) 1
    { account := 40, nativeAmount := 5, tokenAssets := [{ tokenAddr := 50, balance := 7 }] }
    (by decide) (by decide) (by decide)

/-- `C8`: a failed virtual-machine sub-call — the direct execution of
`remoteCallExecutor` and the ERC20-transfer forwarding loops of the
staking and withdrawal operations — is surfaced as a structured business
error in normal mode but as a raw (non-business) error in estimation
mode, so estimation callers see the failure. -/
theorem vm_failure_error_classification (env : EvmEnv) (st : ChainState) (caller : Addr)
    (rth : HashVal) (bid : Nat) (contract : Addr) (data : List Nat) (sender : Addr)
    (t : AccTokenAsset) (rest : List AccTokenAsset) (b : BubBasics) (s : Nat)
    (op2 : OperatorL2) (hb : st.bubBasics bid = some b) (hst : st.bubStatus bid = some s)
    (hh : b.operatorsL2.head? = some op2) :
    (env.gasOk = true → env.callerAddress = op2.opAddr →
      (env.getCode contract).isEmpty = false →
      env.runEvm caller contract (CallInput.raw data) = false →
      ((env.txHash = ZeroHash →
        remoteCallExecutor env st caller rth bid contract data =
          TxOutcome.rawErr RawErr.evmCallFailed st) ∧
       (env.txHash ≠ ZeroHash →
        remoteCallExecutor env st caller rth bid contract data =
          TxOutcome.bizFail BizErr.ErrContractReturns st))) ∧
    ((env.getCode t.tokenAddr).isEmpty = false →
      env.runEvm sender t.tokenAddr (encodeTransferFuncCall BubbleContractAddr t.balance) = false →
      ((env.txHash = ZeroHash →
        stakeTokens env sender (t :: rest) = Except.error (VMErr.raw RawErr.evmCallFailed)) ∧
       (env.txHash ≠ ZeroHash →
        stakeTokens env sender (t :: rest) = Except.error (VMErr.biz BizErr.ErrEVMExecERC20)))) ∧
    ((env.getCode t.tokenAddr).isEmpty = false →
      env.runEvm BubbleContractAddr t.tokenAddr (encodeTransferFuncCall sender t.balance) = false →
      ((env.txHash = ZeroHash →
        withdrawTokens env sender (t :: rest) = Except.error (VMErr.raw RawErr.evmCallFailed)) ∧
       (env.txHash ≠ ZeroHash →
        withdrawTokens env sender (t :: rest) = Except.error (VMErr.biz BizErr.ErrEVMExecERC20)))) := by
  refine ⟨fun hg hsend hcode hrun => ⟨fun hzero => ?_, fun hnz => ?_⟩,
    fun hcode hrun => ⟨fun hzero => ?_, fun hnz => ?_⟩,
    fun hcode hrun => ⟨fun hzero => ?_, fun hnz => ?_⟩⟩
  · unfold remoteCallExecutor
    simp [hg, getBubbleInfo, hb, hst, hh, hsend, hcode, hrun, hzero]
  · unfold remoteCallExecutor
    simp [hg, getBubbleInfo, hb, hst, hh, hsend, hcode, hrun, hnz]
  · unfold stakeTokens
    simp [hcode, hrun, hzero]
  · unfold stakeTokens
    simp [hcode, hrun, hnz]
  · unfold withdrawTokens
    simp [hcode, hrun, hzero]
  · unfold withdrawTokens
    simp [hcode, hrun, hnz]

/-- `C8` witness: with the fixture bubble and an always-failing virtual
machine, the three forwarding sites yield raw errors under the zero hash
and the corresponding business errors under hash 5. -/
theorem vm_failure_error_classification_witness :
    (remoteCallExecutor (testEnv 0 41 false) (testSt CreatedStatus none []) 42 0 1 60 [1] =
      TxOutcome.rawErr RawErr.evmCallFailed (testSt CreatedStatus none [])) ∧
    (remoteCallExecutor (testEnv 5 41 false) (testSt CreatedStatus none []) 42 0 1 60 [1] =
      TxOutcome.bizFail BizErr.ErrContractReturns (testSt CreatedStatus none [])) ∧
    (stakeTokens (testEnv 0 41 false) 40 [{ tokenAddr := 50, balance := 7 }] =
      Except.error (VMErr.raw RawErr.evmCallFailed)) ∧
    (stakeTokens (testEnv 5 41 false) 40 [{ tokenAddr := 50, balance := 7 }] =
      Except.error (VMErr.biz BizErr.ErrEVMExecERC20)) ∧
    (withdrawTokens (testEnv 0 41 false) 40 [{ tokenAddr := 50, balance := 7 }] =
      Except.error (VMErr.raw RawErr.evmCallFailed)) ∧
    (withdrawTokens (testEnv 5 41 false) 40 [{ tokenAddr := 50, balance := 7 }] =
      Except.error (VMErr.biz BizErr.ErrEVMExecERC20)) := by
  refine ⟨?_, ?_, ?_, ?_, ?_, ?_⟩
  · exact ((vm_failure_error_classification (testEnv 0 41 false) (testSt CreatedStatus none [])
      42 0 1 60 [1] 40 { tokenAddr := 50, balance := 7 } [] exBasics CreatedStatus
      { nodeId := 8, rpc := 9, opAddr := 41 } (by decide) (by decide) (by decide)).1
      (by decide) (by decide) (by decide) (by decide)).1 (by decide)
  · exact ((vm_failure_error_classification (testEnv 5 41 false) (testSt CreatedStatus none [])
      42 0 1 60 [1] 40 { tokenAddr := 50, balance := 7 } [] exBasics CreatedStatus
      { nodeId := 8, rpc := 9, opAddr := 41 } (by decide) (by decide) (by decide)).1
      (by decide) (by decide) (by decide) (by decide)).2 (by decide)
  · exact ((vm_failure_error_classification (testEnv 0 41 false) (testSt CreatedStatus none [])
      42 0 1 60 [1] 40 { tokenAddr := 50, balance := 7 } [] exBasics CreatedStatus
      { nodeId := 8, rpc := 9, opAddr := 41 } (by decide) (by decide) (by decide)).2.1
      (by decide) (by decide)).1 (by decide)
  · exact ((vm_failure_error_classification (testEnv 5 41 false) (testSt CreatedStatus none [])
      42 0 1 60 [1] 40 { tokenAddr := 50, balance := 7 } [] exBasics CreatedStatus
      { nodeId := 8, rpc := 9, opAddr := 41 } (by decide) (by decide) (by decide)).2.1
      (by decide) (by decide)).2 (by decide)
  · exact ((vm_failure_error_classification (testEnv 0 41 false) (testSt CreatedStatus none [])
      42 0 1 60 [1] 40 { tokenAddr := 50, balance := 7 } [] exBasics CreatedStatus
      { nodeId := 8, rpc := 9, opAddr := 41 } (by decide) (by decide) (by decide)).2.2
      (by decide) (by decide)).1 (by decide)
  · exact ((vm_failure_error_classification (testEnv 5 41 false) (testSt CreatedStatus none [])
      42 0 1 60 [1] 40 { tokenAddr := 50, balance := 7 } [] exBasics CreatedStatus
      { nodeId := 8, rpc := 9, opAddr := 41 } (by decide) (by decide) (by decide)).2.2
      (by decide) (by decide)).2 (by decide)

theorem stakeNative_balances (st : ChainState) (sender : Addr) (amt : Int)
    (hne : sender ≠ BubbleContractAddr) (hnn : 0 ≤ amt) :
    (stakeNative st sender amt).balances BubbleContractAddr =
      st.balances BubbleContractAddr + amt ∧
    (stakeNative st sender amt).balances sender = st.balances sender - amt := by
  unfold stakeNative
  by_cases h0 : 0 < amt
  · rw [if_pos h0]
    exact ⟨moveBalance_dst st sender BubbleContractAddr amt (Ne.symm hne),
           moveBalance_src st sender BubbleContractAddr amt (Ne.symm hne)⟩
  · rw [if_neg h0]
    have hz : amt = 0 := le_antisymm (not_lt.1 h0) hnn
    simp [hz]

theorem stakingTokenPersist_balances (env : EvmEnv) (st1 : ChainState) (bid : Nat)
    (basics : BubBasics) (asset : AccountAsset) :
    ∀ (v : Option Unit) (st4 : ChainState),
      stakingTokenPersist env st1 bid basics asset = ExecRes.ok v st4 →
      st4.balances = st1.balances := by
  intro v st4 h
  unfold stakingTokenPersist at h
  cases hh1 : basics.operatorsL1.head? with
  | none => simp only [hh1] at h; simp at h
  | some op1 =>
    simp only [hh1] at h
    by_cases hnid : env.nodeId = op1.nodeId
    · rw [if_pos hnid] at h
      cases hh2 : basics.operatorsL2.head? with
      | none => simp only [hh2] at h; simp at h
      | some op2 =>
        simp only [hh2] at h
        simp at h
        rw [← h.2]
        rfl
    · rw [if_neg hnid] at h
      simp at h
      rw [← h.2]
      rfl

/-- `C2` counterexample: the claim as stated fails when the staking caller
is the custody address itself — the stake of 5 native succeeds (balance
100 at the custody account covers it), yet the custody balance afterwards
is still 100, not 100 + 5, because the debit and the credit hit the same
account. -/
theorem stake_conservation_counterexample :
    (stakingToken (testEnv 1 BubbleContractAddr true) (testSt CreatedStatus none []) 1
      { account := BubbleContractAddr, nativeAmount := 5, tokenAssets := [] }).isReceipt = true ∧
    (stakingToken (testEnv 1 BubbleContractAddr true) (testSt CreatedStatus none []) 1
      { account := BubbleContractAddr, nativeAmount := 5, tokenAssets := [] }).balanceOf
        BubbleContractAddr = some 100 ∧
    (testSt CreatedStatus none []).balances BubbleContractAddr = 100 := by
  decide

/-- `C2` (amended): for every successful `stakingToken` call whose caller
is not the custody address itself (and with the non-negative native amount
RLP decoding guarantees), the custody balance grows by the staked native
amount and the caller's balance shrinks by it; and whenever the caller's
balance is strictly below the declared native amount the operation fails
with a business error before any balance or record mutation. -/
theorem stake_balance_conservation (env : EvmEnv) (st : ChainState) (bid : Nat)
    (asset : AccountAsset) :
    (env.callerAddress ≠ BubbleContractAddr → 0 ≤ asset.nativeAmount →
      (stakingToken env st bid asset).isReceipt = true →
      (stakingToken env st bid asset).balanceOf BubbleContractAddr =
        some (st.balances BubbleContractAddr + asset.nativeAmount) ∧
      (stakingToken env st bid asset).balanceOf env.callerAddress =
        some (st.balances env.callerAddress - asset.nativeAmount)) ∧
    (env.gasOk = true → st.balances env.callerAddress < asset.nativeAmount →
      (stakingToken env st bid asset).isBizFail = true ∧
      (stakingToken env st bid asset).state? = some st) := by
  constructor
  · intro hne hnn hr
    unfold stakingToken at hr ⊢
    by_cases hg : env.gasOk = false
    · rw [if_pos hg] at hr; simp [TxOutcome.isReceipt] at hr
    · rw [if_neg hg] at hr ⊢
      by_cases hca : env.callerAddress = asset.account
      · cases hbb : st.bubBasics bid with
        | none =>
          unfold StakingToken at hr
          rw [if_neg (not_ne_iff.mpr hca)] at hr
          simp only [hbb] at hr
          simp [wrapTx, TxOutcome.isReceipt] at hr
        | some basics =>
          cases hbs : st.bubStatus bid with
          | none =>
            unfold StakingToken at hr
            rw [if_neg (not_ne_iff.mpr hca)] at hr
            simp only [hbb, hbs] at hr
            simp [wrapTx, TxOutcome.isReceipt] at hr
          | some s =>
            by_cases hrel : s = ReleasedStatus
            · unfold StakingToken at hr
              rw [if_neg (not_ne_iff.mpr hca)] at hr
              simp only [hbb, hbs] at hr
              rw [if_pos hrel] at hr
              simp [wrapTx, TxOutcome.isReceipt] at hr
            · by_cases hbal : st.balances env.callerAddress < asset.nativeAmount
              · unfold StakingToken at hr
                rw [if_neg (not_ne_iff.mpr hca)] at hr
                simp only [hbb, hbs] at hr
                rw [if_neg hrel, if_pos hbal] at hr
                simp [wrapTx, TxOutcome.isReceipt] at hr
              · have key : StakingToken env st bid asset =
                    stakingTokenRun env (stakeNative st env.callerAddress asset.nativeAmount)
                      bid basics asset := by
                  unfold StakingToken
                  rw [if_neg (not_ne_iff.mpr hca)]
                  simp only [hbb, hbs]
                  rw [if_neg hrel, if_neg hbal]
                rw [key] at hr ⊢
                unfold stakingTokenRun at hr ⊢
                cases hw : stakeTokens env env.callerAddress asset.tokenAssets with
                | error e =>
                  simp only [hw] at hr
                  cases e <;> simp [wrapTx, TxOutcome.isReceipt] at hr
                | ok u =>
                  simp only [hw] at hr ⊢
                  by_cases hz : env.txHash = ZeroHash
                  · rw [if_pos hz] at hr
                    simp [wrapTx, TxOutcome.isReceipt] at hr
                  · rw [if_neg hz] at hr ⊢
                    cases hp : stakingTokenPersist env
                        (stakeNative st env.callerAddress asset.nativeAmount) bid basics asset with
                    | crash => rw [hp] at hr; simp [wrapTx, TxOutcome.isReceipt] at hr
                    | err e st2 =>
                      rw [hp] at hr
                      cases e <;> simp [wrapTx, TxOutcome.isReceipt] at hr
                    | ok v st4 =>
                      have hbal4 := stakingTokenPersist_balances env
                        (stakeNative st env.callerAddress asset.nativeAmount) bid basics asset
                        v st4 hp
                      obtain ⟨hcust, hsend⟩ :=
                        stakeNative_balances st env.callerAddress asset.nativeAmount hne hnn
                      cases v with
                      | none => rw [hp] at hr; simp [wrapTx, TxOutcome.isReceipt] at hr
                      | some u2 =>
                        constructor
                        · simp [wrapTx, TxOutcome.balanceOf, TxOutcome.state?, hbal4, hcust]
                        · simp [wrapTx, TxOutcome.balanceOf, TxOutcome.state?, hbal4, hsend]
      · unfold StakingToken at hr
        rw [if_pos hca] at hr
        simp [wrapTx, TxOutcome.isReceipt] at hr
  · intro hg hbal
    unfold stakingToken StakingToken
    by_cases hca : env.callerAddress = asset.account
    · rw [hca] at hbal
      cases hbb : st.bubBasics bid with
      | none => simp [hg, hca, hbb, wrapTx, TxOutcome.isBizFail, TxOutcome.state?]
      | some basics =>
        cases hbs : st.bubStatus bid with
        | none => simp [hg, hca, hbb, hbs, wrapTx, TxOutcome.isBizFail, TxOutcome.state?]
        | some s =>
          by_cases hrel : s = ReleasedStatus
          · simp [hg, hca, hbb, hbs, hrel, wrapTx, TxOutcome.isBizFail, TxOutcome.state?]
          · simp [hg, hca, hbb, hbs, hrel, hbal, wrapTx, TxOutcome.isBizFail, TxOutcome.state?]
    · simp [hg, hca, wrapTx, TxOutcome.isBizFail, TxOutcome.state?]

/-- `C2` witness: account 40 stakes 5 native — custody goes 100 to 105,
the staker goes 100 to 95; and a declared amount of 200 against balance
100 fails with a business error leaving the state untouched. -/
theorem stake_balance_conservation_witness :
    ((stakingToken (testEnv 1 40 true) (testSt CreatedStatus none []) 1
        { account := 40, nativeAmount := 5, tokenAssets := [] }).balanceOf BubbleContractAddr =
      some 105 ∧
      (stakingToken (testEnv 1 40 true) (testSt CreatedStatus none []) 1
        { account := 40, nativeAmount := 5, tokenAssets := [] }).balanceOf 40 = some 95) ∧
    ((stakingToken (testEnv 1 40 true) (testSt CreatedStatus none []) 1
        { account := 40, nativeAmount := 200, tokenAssets := [] }).isBizFail = true ∧
      (stakingToken (testEnv 1 40 true) (testSt CreatedStatus none []) 1
        { account := 40, nativeAmount := 200, tokenAssets := [] }).state? =
        some (testSt CreatedStatus none [])) := by
  constructor
  · exact (stake_balance_conservation (testEnv 1 40 true) (testSt CreatedStatus none []) 1
      { account := 40, nativeAmount := 5, tokenAssets := [] }).1 (by decide) (by decide)
      (by decide)
  · exact (stake_balance_conservation (testEnv 1 40 true) (testSt CreatedStatus none []) 1
      { account := 40, nativeAmount := 200, tokenAssets := [] }).2 (by decide) (by decide)

theorem recordsPreserved_of_state (o : TxOutcome) (st : ChainState)
    (h : o.state? = some st) : recordsPreserved o st := by
  intro st1 h1
  rw [h] at h1
  injection h1 with h2
  rw [← h2]
  exact sameRecords_refl st

theorem balancesPreserved_of_state (o : TxOutcome) (st : ChainState)
    (h : o.state? = some st) : balancesPreserved o st := by
  intro st1 h1
  rw [h] at h1
  injection h1 with h2
  rw [← h2]

theorem recordsPreserved_crash (st : ChainState) : recordsPreserved TxOutcome.crash st := by
  intro st1 h1
  simp [TxOutcome.state?] at h1

theorem balancesPreserved_crash (st : ChainState) : balancesPreserved TxOutcome.crash st := by
  intro st1 h1
  simp [TxOutcome.state?] at h1

theorem wrap_estimate {α : Type} (r : ExecRes (Option α)) (st : ChainState)
    (hs : (∃ st1, r = ExecRes.ok none st1 ∧ sameRecords st1 st) ∨
          (∃ e st1, r = ExecRes.err e st1 ∧ sameRecords st1 st) ∨ r = ExecRes.crash) :
    (wrapTx r).isReceipt = false ∧ recordsPreserved (wrapTx r) st := by
  rcases hs with ⟨st1, hr, hsame⟩ | ⟨e, st1, hr, hsame⟩ | hr
  · subst hr
    refine ⟨rfl, fun st2 h2 => ?_⟩
    simp [wrapTx, TxOutcome.state?] at h2
    rw [← h2]
    exact hsame
  · subst hr
    cases e with
    | biz e2 =>
      refine ⟨rfl, fun st2 h2 => ?_⟩
      simp [wrapTx, TxOutcome.state?] at h2
      rw [← h2]
      exact hsame
    | raw e2 =>
      refine ⟨rfl, fun st2 h2 => ?_⟩
      simp [wrapTx, TxOutcome.state?] at h2
      rw [← h2]
      exact hsame
  · subst hr
    exact ⟨rfl, recordsPreserved_crash st⟩

theorem StakingToken_estimate (env : EvmEnv) (st : ChainState) (bid : Nat)
    (asset : AccountAsset) (h : env.txHash = ZeroHash) :
    (∃ st1, StakingToken env st bid asset = ExecRes.ok none st1 ∧ sameRecords st1 st) ∨
    (∃ e st1, StakingToken env st bid asset = ExecRes.err e st1 ∧ sameRecords st1 st) ∨
    StakingToken env st bid asset = ExecRes.crash := by
  unfold StakingToken
  split
  · exact Or.inr (Or.inl ⟨_, st, rfl, sameRecords_refl st⟩)
  · split
    · exact Or.inr (Or.inl ⟨_, st, rfl, sameRecords_refl st⟩)
    · split
      · exact Or.inr (Or.inl ⟨_, st, rfl, sameRecords_refl st⟩)
      · split
        · exact Or.inr (Or.inl ⟨_, st, rfl, sameRecords_refl st⟩)
        · split
          · exact Or.inr (Or.inl ⟨_, st, rfl, sameRecords_refl st⟩)
          · unfold stakingTokenRun
            split
            · exact Or.inr (Or.inl ⟨_, _, rfl,
                sameRecords_stakeNative st env.callerAddress asset.nativeAmount⟩)
            · rw [if_pos h]
              exact Or.inl ⟨_, rfl,
                sameRecords_stakeNative st env.callerAddress asset.nativeAmount⟩

theorem WithdrewToken_estimate (env : EvmEnv) (st : ChainState) (bid : Nat)
    (h : env.txHash = ZeroHash) :
    (∃ st1, WithdrewToken env st bid = ExecRes.ok none st1 ∧ sameRecords st1 st) ∨
    (∃ e st1, WithdrewToken env st bid = ExecRes.err e st1 ∧ sameRecords st1 st) ∨
    WithdrewToken env st bid = ExecRes.crash := by
  unfold WithdrewToken
  split
  · exact Or.inr (Or.inl ⟨_, st, rfl, sameRecords_refl st⟩)
  · split
    · exact Or.inr (Or.inl ⟨_, st, rfl, sameRecords_refl st⟩)
    · split
      · exact Or.inr (Or.inl ⟨_, st, rfl, sameRecords_refl st⟩)
      · split
        · exact Or.inl ⟨st, rfl, sameRecords_refl st⟩
        · unfold withdrewTokenRun
          split
          · exact Or.inr (Or.inl ⟨_, _, rfl, sameRecords_withdrawNative st env.callerAddress _⟩)
          · rw [if_pos h]
            exact Or.inl ⟨_, rfl, sameRecords_withdrawNative st env.callerAddress _⟩

theorem SettleBubble_estimate (env : EvmEnv) (st : ChainState) (l2h : HashVal)
    (bid : Nat) (info : SettlementInfo) (h : env.txHash = ZeroHash) :
    SettleBubble env st l2h bid info = ExecRes.ok none st ∨
    (∃ e, SettleBubble env st l2h bid info = ExecRes.err e st) ∨
    SettleBubble env st l2h bid info = ExecRes.crash := by
  unfold SettleBubble
  split
  · exact Or.inr (Or.inl ⟨_, rfl⟩)
  · split
    · exact Or.inr (Or.inl ⟨_, rfl⟩)
    · split
      · exact Or.inr (Or.inl ⟨_, rfl⟩)
      · split
        · exact Or.inr (Or.inr rfl)
        · split
          · exact Or.inr (Or.inl ⟨_, rfl⟩)
          · split
            · exact Or.inr (Or.inl ⟨_, rfl⟩)
            · split
              · exact Or.inr (Or.inl ⟨_, rfl⟩)
              · exact Or.inl rfl

theorem estimate_leaf_self (o : TxOutcome) (st : ChainState) (h1 : o.state? = some st)
    (h2 : o.isReceipt = false) :
    o.isReceipt = false ∧ recordsPreserved o st ∧ balancesPreserved o st :=
  ⟨h2, recordsPreserved_of_state o st h1, balancesPreserved_of_state o st h1⟩

theorem stakingToken_estimate (env : EvmEnv) (st : ChainState) (bid : Nat)
    (asset : AccountAsset) (h : env.txHash = ZeroHash) :
    (stakingToken env st bid asset).isReceipt = false ∧
    recordsPreserved (stakingToken env st bid asset) st := by
  unfold stakingToken
  split
  · exact ⟨rfl, recordsPreserved_of_state _ _ rfl⟩
  · exact wrap_estimate _ st (StakingToken_estimate env st bid asset h)

theorem withdrewToken_estimate (env : EvmEnv) (st : ChainState) (bid : Nat)
    (h : env.txHash = ZeroHash) :
    (withdrewToken env st bid).isReceipt = false ∧
    recordsPreserved (withdrewToken env st bid) st := by
  unfold withdrewToken
  split
  · exact ⟨rfl, recordsPreserved_of_state _ _ rfl⟩
  · exact wrap_estimate _ st (WithdrewToken_estimate env st bid h)

theorem settleBubble_estimate (env : EvmEnv) (st : ChainState) (l2h : HashVal)
    (bid : Nat) (info : SettlementInfo) (h : env.txHash = ZeroHash) :
    (settleBubble env st l2h bid info).isReceipt = false ∧
    recordsPreserved (settleBubble env st l2h bid info) st ∧
    balancesPreserved (settleBubble env st l2h bid info) st := by
  unfold settleBubble
  split
  · exact estimate_leaf_self _ st rfl rfl
  · rcases SettleBubble_estimate env st l2h bid info h with h1 | ⟨e, h1⟩ | h1
    · rw [h1]; exact estimate_leaf_self _ st rfl rfl
    · rw [h1]
      cases e with
      | biz e2 => exact estimate_leaf_self _ st rfl rfl
      | raw e2 => exact estimate_leaf_self _ st rfl rfl
    · rw [h1]
      exact ⟨rfl, recordsPreserved_crash st, balancesPreserved_crash st⟩

theorem remoteDeploy_estimate (env : EvmEnv) (st : ChainState) (bid : Nat) (addr : Addr)
    (amt : Int) (data : List Nat) (h : env.txHash = ZeroHash) :
    (remoteDeploy env st bid addr amt data).isReceipt = false ∧
    recordsPreserved (remoteDeploy env st bid addr amt data) st ∧
    balancesPreserved (remoteDeploy env st bid addr amt data) st := by
  unfold remoteDeploy
  split
  · exact estimate_leaf_self _ st rfl rfl
  · split
    · exact estimate_leaf_self _ st rfl rfl
    · split
      · exact estimate_leaf_self _ st rfl rfl
      · split
        · exact estimate_leaf_self _ st rfl rfl
        · split
          · exact estimate_leaf_self _ st rfl rfl
          · split
            · exact estimate_leaf_self _ st rfl rfl
            · split
              · exact estimate_leaf_self _ st rfl rfl
              · split
                · exact estimate_leaf_self _ st rfl rfl
                · exact estimate_leaf_self _ st rfl rfl

theorem remoteCall_estimate (env : EvmEnv) (st : ChainState) (bid : Nat) (contract : Addr)
    (data : List Nat) (h : env.txHash = ZeroHash) :
    (remoteCall env st bid contract data).isReceipt = false ∧
    recordsPreserved (remoteCall env st bid contract data) st ∧
    balancesPreserved (remoteCall env st bid contract data) st := by
  unfold remoteCall
  split
  · exact estimate_leaf_self _ st rfl rfl
  · split
    · exact estimate_leaf_self _ st rfl rfl
    · split
      · exact estimate_leaf_self _ st rfl rfl
      · exact estimate_leaf_self _ st rfl rfl

/-- `C1` counterexample: the claim as stated fails for `stakingToken` —
an estimation-mode (zero transaction hash) staking of 5 native returns the
null result but does change an account balance: the custody balance goes
from 100 to 105, because the native debit and credit happen before the
estimation cut-off. -/
theorem estimation_mode_counterexample :
    (testEnv 0 40 true).txHash = ZeroHash ∧
    (stakingToken (testEnv 0 40 true) (testSt CreatedStatus none []) 1
      { account := 40, nativeAmount := 5, tokenAssets := [] }).isNull = true ∧
    (stakingToken (testEnv 0 40 true) (testSt CreatedStatus none []) 1
      { account := 40, nativeAmount := 5, tokenAssets := [] }).balanceOf BubbleContractAddr =
      some 105 ∧
    (testSt CreatedStatus none []).balances BubbleContractAddr = 100 := by
  decide

/-- `C1` (amended): a mutating operation invoked with the zero
transaction-hash sentinel never returns a success receipt and never
changes any plugin-persisted record — no stored account asset, no account
list, no tx-hash history, no hash mapping, no contract registration, no
bytecode cache — and never enqueues a cross-chain task; `settleBubble`,
`remoteDeploy` and `remoteCall` additionally leave every account balance
unchanged, while `stakingToken` and `withdrewToken` do execute their
native-balance transfer before the estimation cut-off. -/
theorem estimation_mode_frame (env : EvmEnv) (st : ChainState) (bid : Nat)
    (asset : AccountAsset) (l2h : HashVal) (info : SettlementInfo) (addr : Addr)
    (amt : Int) (data : List Nat) (contract : Addr) (h : env.txHash = ZeroHash) :
    ((stakingToken env st bid asset).isReceipt = false ∧
      recordsPreserved (stakingToken env st bid asset) st) ∧
    ((withdrewToken env st bid).isReceipt = false ∧
      recordsPreserved (withdrewToken env st bid) st) ∧
    ((settleBubble env st l2h bid info).isReceipt = false ∧
      recordsPreserved (settleBubble env st l2h bid info) st ∧
      balancesPreserved (settleBubble env st l2h bid info) st) ∧
    ((remoteDeploy env st bid addr amt data).isReceipt = false ∧
      recordsPreserved (remoteDeploy env st bid addr amt data) st ∧
      balancesPreserved (remoteDeploy env st bid addr amt data) st) ∧
    ((remoteCall env st bid contract data).isReceipt = false ∧
      recordsPreserved (remoteCall env st bid contract data) st ∧
      balancesPreserved (remoteCall env st bid contract data) st) :=
  ⟨stakingToken_estimate env st bid asset h,
   withdrewToken_estimate env st bid h,
   settleBubble_estimate env st l2h bid info h,
   remoteDeploy_estimate env st bid addr amt data h,
   remoteCall_estimate env st bid contract data h⟩

/-- `C1` witness: the amended frame property at the fixture state, for all
five mutating operations, under the zero transaction hash. -/
theorem estimation_mode_frame_witness :
    ((stakingToken (testEnv 0 40 true) (testSt CreatedStatus none []) 1
        { account := 40, nativeAmount := 5, tokenAssets := [] }).isReceipt = false ∧
      recordsPreserved (stakingToken (testEnv 0 40 true) (testSt CreatedStatus none []) 1
        { account := 40, nativeAmount := 5, tokenAssets := [] }) (testSt CreatedStatus none [])) ∧
    ((withdrewToken (testEnv 0 40 true) (testSt CreatedStatus none []) 1).isReceipt = false ∧
      recordsPreserved (withdrewToken (testEnv 0 40 true) (testSt CreatedStatus none []) 1)
        (testSt CreatedStatus none [])) ∧
    ((settleBubble (testEnv 0 40 true) (testSt CreatedStatus none []) 77 1
        { accAssets := [] }).isReceipt = false ∧
      recordsPreserved (settleBubble (testEnv 0 40 true) (testSt CreatedStatus none []) 77 1
        { accAssets := [] }) (testSt CreatedStatus none []) ∧
      balancesPreserved (settleBubble (testEnv 0 40 true) (testSt CreatedStatus none []) 77 1
        { accAssets := [] }) (testSt CreatedStatus none [])) ∧
    ((remoteDeploy (testEnv 0 40 true) (testSt CreatedStatus none []) 1 50 10 []).isReceipt = false ∧
      recordsPreserved (remoteDeploy (testEnv 0 40 true) (testSt CreatedStatus none []) 1 50 10 [])
        (testSt CreatedStatus none []) ∧
      balancesPreserved (remoteDeploy (testEnv 0 40 true) (testSt CreatedStatus none []) 1 50 10 [])
        (testSt CreatedStatus none [])) ∧
    ((remoteCall (testEnv 0 40 true) (testSt CreatedStatus none []) 1 60 []).isReceipt = false ∧
      recordsPreserved (remoteCall (testEnv 0 40 true) (testSt CreatedStatus none []) 1 60 [])
        (testSt CreatedStatus none []) ∧
      balancesPreserved (remoteCall (testEnv 0 40 true) (testSt CreatedStatus none []) 1 60 [])
        (testSt CreatedStatus none [])) :=
  estimation_mode_frame (testEnv 0 40 true) (testSt CreatedStatus none []) 1
    { account := 40, nativeAmount := 5, tokenAssets := [] } 77 { accAssets := [] } 50 10 [] 60
    (by decide)
